import Mathlib

/-!
Verification of the Interview-ai-assistant repository's client and relay
behaviour against its specification.

The browser client (`InterviewWidget`, in its plain and enhanced variants),
the `AuthForm` component and the Supabase module are embedded directly from
the TypeScript source.  The server-side session relay (FastAPI backend) is
not part of the source tree; the components the spec describes for it
(AudioIngestBuffer, SessionRelay suggestion dispatch, failure handling) are
modelled from the spec's words, as marked on each definition.
-/

namespace InterviewAssistant

/-! ## Client widget data model (from `InterviewWidget.tsx` / the enhanced
widget embedded in `Input.tsx`) -/

/-- UI status values used by the widget: 'Idle', 'Connecting', 'Listening', 'Error'. -/
inductive WStatus where
  | Idle
  | Connecting
  | Listening
  | Error
deriving DecidableEq, Repr

/-- WebSocket ready states, as in the browser `WebSocket` constants. -/
inductive ReadyState where
  | CONNECTING
  | OPEN
  | CLOSING
  | CLOSED
deriving DecidableEq, Repr

/-- MediaRecorder states. -/
inductive RecState where
  | inactive
  | recording
  | paused
deriving DecidableEq, Repr

/-- The object held by `socketRef.current`. -/
structure Socket where
  readyState : ReadyState
deriving DecidableEq, Repr

/-- The object held by `mediaRecorderRef.current`. -/
structure Recorder where
  state : RecState
deriving DecidableEq, Repr

/-- The widget's React state (`useState` fields) together with its two refs. -/
structure WidgetState where
  isListening : Bool
  suggestion : String
  transcribedText : String
  status : WStatus
  socketRef : Option Socket
  mediaRecorderRef : Option Recorder
deriving DecidableEq, Repr

/-- The widget state on first render. -/
def initialWidgetState : WidgetState :=
  { isListening := false, suggestion := "", transcribedText := "",
    status := WStatus.Idle, socketRef := none, mediaRecorderRef := none }

/-- One primitive step performed by a widget handler, in program order:
state setter calls, ref writes, and externally visible actions
(`mediaRecorder.stop()`, `socket.close()`, `new WebSocket(...)`,
`socket.send(...)`). -/
inductive UIStep where
  | setListening (b : Bool)
  | setStatus (st : WStatus)
  | setSuggestion (t : String)
  | setTranscribed (t : String)
  | openSocket
  | stopRecorder
  | closeSocket
  | nullRecorderRef
  | nullSocketRef
  | send (size : Nat)
deriving DecidableEq, Repr

/-- Effect of one step on the widget state.  `stopRecorder`, `closeSocket`
and `send` act on the external recorder/socket objects, not on the widget's
own state. -/
def applyStep (s : WidgetState) : UIStep → WidgetState
  | UIStep.setListening b => { s with isListening := b }
  | UIStep.setStatus st => { s with status := st }
  | UIStep.setSuggestion t => { s with suggestion := t }
  | UIStep.setTranscribed t => { s with transcribedText := t }
  | UIStep.openSocket => { s with socketRef := some ⟨ReadyState.CONNECTING⟩ }
  | UIStep.nullRecorderRef => { s with mediaRecorderRef := none }
  | UIStep.nullSocketRef => { s with socketRef := none }
  | _ => s

/-- Run a sequence of steps from a state. -/
def runSteps (s : WidgetState) (es : List UIStep) : WidgetState :=
  es.foldl applyStep s

/-- The `cleanup` function of the widget, as its sequence of steps:
stop the recorder if it is recording, close the socket if present,
then null both refs. -/
def cleanupTrace (s : WidgetState) : List UIStep :=
  (match s.mediaRecorderRef with
   | some r => if r.state = RecState.recording then [UIStep.stopRecorder] else []
   | none => []) ++
  (match s.socketRef with
   | some _ => [UIStep.closeSocket]
   | none => []) ++
  [UIStep.nullRecorderRef, UIStep.nullSocketRef]

/-- The state after running `cleanup`. -/
def cleanupFn (s : WidgetState) : WidgetState :=
  runSteps s (cleanupTrace s)

/-- The `handleToggleListening` handler, as its sequence of steps.
Stop branch: `setIsListening(false); setStatus('Idle'); cleanup()`.
Start branch: `setIsListening(true); setStatus('Connecting');
setSuggestion(''); setTranscribedText('')`, then `new WebSocket(...)`. -/
def toggleTrace (s : WidgetState) : List UIStep :=
  if s.isListening then
    [UIStep.setListening false, UIStep.setStatus WStatus.Idle] ++ cleanupTrace s
  else
    [UIStep.setListening true, UIStep.setStatus WStatus.Connecting,
     UIStep.setSuggestion "", UIStep.setTranscribed "", UIStep.openSocket]

/-- The `onclose` handler: `setStatus('Idle'); setIsListening(false)`. -/
def oncloseTrace : List UIStep :=
  [UIStep.setStatus WStatus.Idle, UIStep.setListening false]

/-- State after the `onclose` handler runs. -/
def onclose (s : WidgetState) : WidgetState :=
  runSteps s oncloseTrace

/-! ## Server-to-client frames and the `onmessage` handlers -/

/-- Session lifecycle states carried by a `status` frame in the protocol. -/
inductive SessState where
  | connecting
  | active
  | draining
  | closed
deriving DecidableEq, Repr

/-- A well-formed JSON text frame sent by the server, per the client
protocol: one of `transcript`, `suggestion`, `error`, `status`. -/
inductive Frame where
  | transcript (text : String) (final : Bool)
  | suggestion (text : String) (forUtterance : Nat)
  | errorFrame (code : String) (message : String)
  | statusFrame (state : SessState)
deriving DecidableEq, Repr

/-- The enhanced widget's `onmessage` handler as its sequence of steps:
`transcript` updates the transcribed text, `suggestion` updates the
suggestion text, `error` sets status 'Error', stops listening and runs
`cleanup`; any other type falls through every branch. -/
def onmessageTrace (f : Frame) (s : WidgetState) : List UIStep :=
  match f with
  | Frame.transcript t _ => [UIStep.setTranscribed t]
  | Frame.suggestion t _ => [UIStep.setSuggestion t]
  | Frame.errorFrame _ _ =>
      [UIStep.setStatus WStatus.Error, UIStep.setListening false] ++ cleanupTrace s
  | Frame.statusFrame _ => []

/-- State after the enhanced widget's `onmessage` handler runs on a frame. -/
def onmessage (f : Frame) (s : WidgetState) : WidgetState :=
  runSteps s (onmessageTrace f s)

/-- The plain widget's `onmessage` handler: only `transcript` and
`suggestion` have branches; `error` and `status` frames fall through. -/
def onmessageSimpleTrace (f : Frame) : List UIStep :=
  match f with
  | Frame.transcript t _ => [UIStep.setTranscribed t]
  | Frame.suggestion t _ => [UIStep.setSuggestion t]
  | _ => []

/-- State after the plain widget's `onmessage` handler runs on a frame. -/
def onmessageSimple (f : Frame) (s : WidgetState) : WidgetState :=
  runSteps s (onmessageSimpleTrace f)

/-- The `ondataavailable` handler: a recorded chunk is sent on the socket
only when it is non-empty and the socket ref holds an OPEN socket;
otherwise the handler performs no step at all. -/
def ondataavailable (dataSize : Nat) (s : WidgetState) : List UIStep :=
  if 0 < dataSize ∧ s.socketRef.map Socket.readyState = some ReadyState.OPEN then
    [UIStep.send dataSize]
  else
    []

/-! ## AuthForm (`AuthForm.tsx`) -/

/-- The two modes of `AuthForm`. -/
inductive AuthMode where
  | login
  | signup
deriving DecidableEq, Repr

/-- Outcome of one `handleSubmit` run: the `error` and `isLoading` state
after the handler returns, and whether the (simulated) authentication call
was reached. -/
structure AuthResult where
  error : String
  isLoading : Bool
  attemptedAuth : Bool
deriving DecidableEq, Repr

/-- The password-mismatch message set by the signup guard. -/
def mismatchMsg : String := "Passwords match nahi kar rahe."

/-- The `handleSubmit` handler of `AuthForm`: sets loading and clears the
error, then in signup mode returns early with the mismatch message when the
two passwords differ; otherwise reaches the (simulated, non-throwing)
authentication call, with `finally` clearing the loading flag. -/
def handleSubmit (mode : AuthMode) (password confirmPassword : String) :
    AuthResult :=
  if mode ≠ AuthMode.login ∧ password ≠ confirmPassword then
    { error := mismatchMsg, isLoading := false, attemptedAuth := false }
  else
    { error := "", isLoading := false, attemptedAuth := true }

/-! ## Supabase module (`lib/supabase.ts`) -/

/-- The client value produced by `createClient(url, key)`. -/
structure SupabaseClient where
  url : String
  anonKey : String
deriving DecidableEq, Repr

/-- `createClient` from `@supabase/supabase-js`, as the record of the two
arguments it receives. -/
def createClient (url anonKey : String) : SupabaseClient :=
  ⟨url, anonKey⟩

/-- JavaScript falsiness of an environment-variable lookup: the variable is
absent, or present with the empty string. -/
def envFalsy : Option String → Bool
  | none => true
  | some s => s = ""

/-- Module initialization of `lib/supabase.ts`: reads the two environment
variables, throws when either is falsy, otherwise exports the client built
from exactly those two values. -/
def initSupabase (urlEnv keyEnv : Option String) :
    Except String SupabaseClient :=
  if envFalsy urlEnv || envFalsy keyEnv then
    Except.error "Supabase URL and Anon Key must be defined in .env.local"
  else
    Except.ok (createClient (urlEnv.getD "") (keyEnv.getD ""))

/-! ## Session relay suggestion dispatch

Modelled from the spec: the backend (FastAPI `main.py` with the
SessionRelay/UtteranceAggregator) is not under the source tree; only its
README is.  The definitions below follow §3, §4.3 and §8 of the spec. -/

/-- An outbound event referencing an utterance id: the final transcript
update for that utterance, or the suggestion produced for it. -/
inductive REvent where
  | transcriptFinal (u : Nat)
  | suggestionReady (u : Nat)
deriving DecidableEq, Repr

/-- An input to the per-session relay loop: an utterance finalizes, or the
in-flight SuggestionAdapter request returns. -/
inductive RInput where
  | finalize (u : Nat)
  | respond
deriving DecidableEq, Repr

/-- Modelled from the spec: per-session relay state for suggestion
dispatch — the utterance of the at-most-one in-flight SuggestionAdapter
request, the size-1 queue of a finalized-while-busy utterance, the ordered
outbound event trace, and the utterances handed to the adapter in order. -/
structure RelayS where
  inflight : Option Nat
  pending : Option Nat
  events : List REvent
  calls : List Nat
deriving DecidableEq, Repr

/-- The relay state of a fresh session. -/
def relayInit : RelayS :=
  { inflight := none, pending := none, events := [], calls := [] }

/-- Modelled from the spec: one step of the relay.  Finalization emits
`transcriptFinal` and is the sole trigger for invoking the adapter: the
request starts at once when none is in flight, otherwise the utterance is
queued, the newest superseding a still-queued older one.  An adapter
response emits `suggestionReady` for the in-flight utterance and then
starts the queued request, if any. -/
def stepRelay (s : RelayS) : RInput → RelayS
  | RInput.finalize u =>
    match s.inflight with
    | none =>
        { s with events := s.events ++ [REvent.transcriptFinal u],
                 inflight := some u, calls := s.calls ++ [u] }
    | some _ =>
        { s with events := s.events ++ [REvent.transcriptFinal u],
                 pending := some u }
  | RInput.respond =>
    match s.inflight with
    | none => s
    | some u =>
      match s.pending with
      | none =>
          { s with events := s.events ++ [REvent.suggestionReady u],
                   inflight := none }
      | some v =>
          { s with events := s.events ++ [REvent.suggestionReady u],
                   inflight := some v, pending := none,
                   calls := s.calls ++ [v] }

/-- Run the relay from the initial state over a list of inputs. -/
def runRelay (is : List RInput) : RelayS :=
  is.foldl stepRelay relayInit

/-- The utterance ids of the `transcriptFinal` events of a trace, in order. -/
def finalIds : List REvent → List Nat
  | [] => []
  | REvent.transcriptFinal u :: rest => u :: finalIds rest
  | REvent.suggestionReady _ :: rest => finalIds rest

/-- Number of `suggestionReady` events in a trace. -/
def suggCount (tr : List REvent) : Nat :=
  (tr.filter fun e => match e with
    | REvent.suggestionReady _ => true
    | _ => false).length

/-- A trace is well ordered relative to a set `seen` of already-finalized
utterance ids when every `suggestionReady u` is preceded (in `seen` or
earlier in the trace) by `transcriptFinal u`. -/
def okEvents (seen : List Nat) : List REvent → Prop
  | [] => True
  | REvent.transcriptFinal u :: rest => okEvents (u :: seen) rest
  | REvent.suggestionReady u :: rest => u ∈ seen ∧ okEvents seen rest

/-- Adapter requests still outstanding after a trace: calls issued minus
responses emitted. -/
def outstanding (s : RelayS) : Nat :=
  s.calls.length - suggCount s.events

/-! ## Audio ingest buffer

Modelled from the spec: `AudioIngestBuffer.accept` (§4.1) — the backend
implementation is not under the source tree. -/

/-- An audio chunk: an opaque byte payload's sequence number and duration. -/
structure AudioChunk where
  seq : Nat
  durationMs : Nat
deriving DecidableEq, Repr

/-- Typed rejection reasons of `accept`. -/
inductive RejectReason where
  | OutOfOrder
  | Overflow
deriving DecidableEq, Repr

/-- Modelled from the spec: the ingest buffer's state — the next expected
sequence number (last accepted + 1, starting at 0), the total buffered
duration, and the sequence numbers forwarded to the TranscriptionAdapter in
order. -/
structure IngestBuffer where
  nextSeq : Nat
  bufferedMs : Nat
  forwarded : List Nat
deriving DecidableEq, Repr

/-- A fresh ingest buffer. -/
def ingestInit : IngestBuffer :=
  { nextSeq := 0, bufferedMs := 0, forwarded := [] }

/-- The configured ceiling on total buffered duration, in milliseconds. -/
def maxBufferedMs : Nat := 30000

/-- Modelled from the spec: `accept(chunk) -> Result<(), RejectReason>`.
A chunk whose sequence number is not exactly the next expected one is
rejected `OutOfOrder`; a chunk that would push the buffered duration past
the ceiling is rejected `Overflow`; otherwise the chunk is accepted and
forwarded.  A rejected chunk leaves the buffer unchanged. -/
def accept (b : IngestBuffer) (c : AudioChunk) :
    IngestBuffer × Except RejectReason Unit :=
  if c.seq ≠ b.nextSeq then
    (b, Except.error RejectReason.OutOfOrder)
  else if maxBufferedMs < b.bufferedMs + c.durationMs then
    (b, Except.error RejectReason.Overflow)
  else
    ({ nextSeq := b.nextSeq + 1, bufferedMs := b.bufferedMs + c.durationMs,
       forwarded := b.forwarded ++ [c.seq] }, Except.ok ())

/-- Run the ingest buffer over a list of presented chunks. -/
def runIngest (cs : List AudioChunk) : IngestBuffer :=
  cs.foldl (fun b c => (accept b c).1) ingestInit

/-! ## Relay failure handling

Modelled from the spec: §7 — the backend implementation is not under the
source tree. -/

/-- The error kinds of §7. -/
inductive ErrorKind where
  | OutOfOrder
  | Overflow
  | BackendUnavailable
  | TransientBackendError
  | Timeout
  | CapacityExceeded
  | MalformedMessage
deriving DecidableEq, Repr

/-- Which error kinds are fatal to the session. -/
def isFatal : ErrorKind → Bool
  | ErrorKind.BackendUnavailable => true
  | ErrorKind.MalformedMessage => true
  | _ => false

/-- An action the relay takes while handling a failure, in order. -/
inductive RelayAction where
  | emitError (k : ErrorKind)
  | emitStatus (st : SessState)
  | releaseConnection
deriving DecidableEq, Repr

/-- Modelled from the spec: handling a surfaced failure of kind `k` in
lifecycle state `st`.  Every kind is surfaced as an `error` event; a fatal
kind additionally emits the `status` events for `Draining` and the terminal
`Closed` before the connection is released, and moves the machine to
`Closed`; a non-fatal kind leaves the state unchanged. -/
def handleFailure (st : SessState) (k : ErrorKind) :
    SessState × List RelayAction :=
  if isFatal k then
    (SessState.closed,
     [RelayAction.emitError k, RelayAction.emitStatus SessState.draining,
      RelayAction.emitStatus SessState.closed, RelayAction.releaseConnection])
  else
    (st, [RelayAction.emitError k])

/-- Concrete widget state used as input in closed instances: a listening
session whose socket has left the OPEN state. -/
def closingSocketState : WidgetState :=
  { isListening := true, suggestion := "", transcribedText := "",
    status := WStatus.Listening,
    socketRef := some ⟨ReadyState.CLOSING⟩,
    mediaRecorderRef := some ⟨RecState.recording⟩ }

/-- Concrete widget state used as input in closed instances: a listening
session whose socket is OPEN. -/
def openSocketState : WidgetState :=
  { isListening := true, suggestion := "", transcribedText := "",
    status := WStatus.Listening,
    socketRef := some ⟨ReadyState.OPEN⟩,
    mediaRecorderRef := some ⟨RecState.recording⟩ }

/-- The relay invariant: the trace is well ordered, the in-flight and
queued utterances already have their final transcript in the trace, and
the number of adapter calls is the number of responses plus one exactly
when a request is in flight. -/
def RelayInv (s : RelayS) : Prop :=
  okEvents [] s.events ∧
  (∀ u, s.inflight = some u → u ∈ finalIds s.events) ∧
  (∀ v, s.pending = some v → v ∈ finalIds s.events) ∧
  s.calls.length =
    suggCount s.events + (match s.inflight with | some _ => 1 | none => 0)

/-! ## Helper lemmas -/

theorem runSteps_append (s : WidgetState) (a b : List UIStep) :
    runSteps s (a ++ b) = runSteps (runSteps s a) b :=
  List.foldl_append applyStep s a b

theorem runSteps_cleanupTrace (s₀ s : WidgetState) :
    runSteps s₀ (cleanupTrace s) =
      { s₀ with mediaRecorderRef := none, socketRef := none } := by
  unfold cleanupTrace
  rcases s with ⟨l, sg, tx, st, sock, rec⟩
  rcases rec with _ | ⟨rst⟩ <;> rcases sock with _ | ⟨ss⟩ <;>
    simp [runSteps, applyStep] <;>
    rcases rst with _ | _ | _ <;> simp [runSteps, applyStep]

theorem cleanupFn_eq (s : WidgetState) :
    cleanupFn s = { s with mediaRecorderRef := none, socketRef := none } :=
  runSteps_cleanupTrace s s

theorem openSocket_not_mem_cleanupTrace (s : WidgetState) :
    UIStep.openSocket ∉ cleanupTrace s := by
  unfold cleanupTrace
  rcases s with ⟨l, sg, tx, st, sock, rec⟩
  rcases rec with _ | ⟨rst⟩
  · rcases sock with _ | ⟨ss⟩ <;> simp
  · rcases sock with _ | ⟨ss⟩ <;> rcases rst with _ | _ | _ <;> simp

theorem finalIds_append (a b : List REvent) :
    finalIds (a ++ b) = finalIds a ++ finalIds b := by
  induction a with
  | nil => rfl
  | cons e rest ih => cases e <;> simp [finalIds, ih]

theorem suggCount_append (a b : List REvent) :
    suggCount (a ++ b) = suggCount a + suggCount b := by
  simp [suggCount, List.filter_append]

theorem suggCount_final (u : Nat) : suggCount [REvent.transcriptFinal u] = 0 := by
  simp [suggCount]

theorem suggCount_ready (u : Nat) : suggCount [REvent.suggestionReady u] = 1 := by
  simp [suggCount]

theorem okEvents_append (tr : List REvent) (seen : List Nat) (e : REvent)
    (h : okEvents seen tr)
    (he : ∀ u, e = REvent.suggestionReady u → u ∈ seen ∨ u ∈ finalIds tr) :
    okEvents seen (tr ++ [e]) := by
  induction tr generalizing seen with
  | nil =>
    cases e with
    | transcriptFinal u => exact trivial
    | suggestionReady u =>
      rcases he u rfl with h1 | h1
      · exact ⟨h1, trivial⟩
      · simp [finalIds] at h1
  | cons x rest ih =>
    cases x with
    | transcriptFinal w =>
      show okEvents (w :: seen) (rest ++ [e])
      refine ih (w :: seen) h ?_
      intro u hu
      rcases he u hu with h1 | h1
      · exact Or.inl (List.mem_cons_of_mem _ h1)
      · rcases List.mem_cons.mp (by simpa [finalIds] using h1) with h2 | h2
        · exact Or.inl (h2 ▸ List.mem_cons_self _ _)
        · exact Or.inr h2
    | suggestionReady w =>
      obtain ⟨hw, hrest⟩ := h
      refine ⟨hw, ih seen hrest ?_⟩
      intro u hu
      simpa [finalIds] using he u hu

theorem relayInv_init : RelayInv relayInit := by
  refine ⟨trivial, ?_, ?_, ?_⟩ <;> simp [relayInit, suggCount, finalIds]

theorem relayInv_step (s : RelayS) (i : RInput) (h : RelayInv s) :
    RelayInv (stepRelay s i) := by
  obtain ⟨hok, hinf, hpend, hcount⟩ := h
  cases i with
  | finalize u =>
    cases hi : s.inflight with
    | none =>
      simp only [stepRelay, hi]
      refine ⟨?_, ?_, ?_, ?_⟩
      · exact okEvents_append _ _ _ hok (fun u' hu' => by cases hu')
      · intro u' hu'
        obtain rfl : u = u' := by simpa using hu'
        simp [finalIds_append, finalIds]
      · intro v hv
        simp [finalIds_append, finalIds, hpend v hv]
      · simp only [hi] at hcount
        simp [suggCount_append, suggCount_final, hcount]
    | some w =>
      simp only [stepRelay, hi]
      refine ⟨?_, ?_, ?_, ?_⟩
      · exact okEvents_append _ _ _ hok (fun u' hu' => by cases hu')
      · intro u' hu'
        obtain rfl : w = u' := by simpa using hu'
        simp only [finalIds_append, finalIds]
        exact List.mem_append_left _ (hinf w hi)
      · intro v hv
        obtain rfl : u = v := by simpa using hv
        simp [finalIds_append, finalIds]
      · simp only [hi] at hcount
        simp [suggCount_append, suggCount_final, hcount]
  | respond =>
    cases hi : s.inflight with
    | none => simpa [stepRelay, hi] using ⟨hok, hinf, hpend, hcount⟩
    | some u =>
      cases hp : s.pending with
      | none =>
        simp only [stepRelay, hi, hp]
        refine ⟨?_, ?_, ?_, ?_⟩
        · refine okEvents_append _ _ _ hok ?_
          intro u' hu'
          obtain rfl : u = u' := by simpa using hu'
          exact Or.inr (hinf u hi)
        · intro u' hu'
          simp at hu'
        · intro v hv
          simp [hp] at hv
        · simp only [hi] at hcount
          simp [suggCount_append, suggCount_ready, hcount]
      | some v =>
        simp only [stepRelay, hi, hp]
        refine ⟨?_, ?_, ?_, ?_⟩
        · refine okEvents_append _ _ _ hok ?_
          intro u' hu'
          obtain rfl : u = u' := by simpa using hu'
          exact Or.inr (hinf u hi)
        · intro v' hv'
          obtain rfl : v = v' := by simpa using hv'
          simp only [finalIds_append, finalIds]
          exact List.mem_append_left _ (hpend v hp)
        · intro v' hv'
          simp at hv'
        · simp only [hi] at hcount
          simp [suggCount_append, suggCount_ready, hcount]

theorem relayInv_foldl (is : List RInput) :
    ∀ s : RelayS, RelayInv s → RelayInv (is.foldl stepRelay s) := by
  induction is with
  | nil => intro s h; exact h
  | cons i rest ih =>
    intro s h
    exact ih (stepRelay s i) (relayInv_step s i h)

theorem relayInv_run (is : List RInput) : RelayInv (runRelay is) :=
  relayInv_foldl is relayInit relayInv_init

/-! ## Claim C6: `onclose` resets the UI to idle and never reconnects -/

/-- C6: when the WebSocket closes, the `onclose` handler sets status to
'Idle' and `isListening` to false, changes nothing else (in particular no
new socket is opened and the refs are untouched), and its step sequence
contains no socket-opening step — no reconnection or retry is attempted. -/
theorem onclose_resets_to_idle (s : WidgetState) :
    onclose s = { s with status := WStatus.Idle, isListening := false } ∧
    UIStep.openSocket ∉ oncloseTrace := by
  constructor
  · simp [onclose, oncloseTrace, runSteps, applyStep]
  · simp [oncloseTrace]

/-- Closed instance of `onclose_resets_to_idle` at a concrete state. -/
theorem onclose_resets_to_idle_witness :
    onclose openSocketState =
      { openSocketState with status := WStatus.Idle, isListening := false } ∧
    UIStep.openSocket ∉ oncloseTrace :=
  onclose_resets_to_idle openSocketState

/-! ## Claim C7: `cleanup` is idempotent -/

/-- C7: `cleanup` is idempotent — running it on an already-cleaned state
changes nothing, both resource refs are null after the first invocation,
the second invocation performs no recorder stop and no socket close, and
the first invocation does stop a recording recorder and close a present
socket. -/
theorem cleanup_idempotent (s : WidgetState) :
    cleanupFn (cleanupFn s) = cleanupFn s ∧
    (cleanupFn s).mediaRecorderRef = none ∧
    (cleanupFn s).socketRef = none ∧
    UIStep.stopRecorder ∉ cleanupTrace (cleanupFn s) ∧
    UIStep.closeSocket ∉ cleanupTrace (cleanupFn s) ∧
    (s.mediaRecorderRef = some ⟨RecState.recording⟩ →
      UIStep.stopRecorder ∈ cleanupTrace s) ∧
    (∀ sock, s.socketRef = some sock → UIStep.closeSocket ∈ cleanupTrace s) := by
  refine ⟨?_, ?_, ?_, ?_, ?_, ?_, ?_⟩
  · simp [cleanupFn_eq]
  · rw [cleanupFn_eq]
  · rw [cleanupFn_eq]
  · rw [cleanupFn_eq]; simp [cleanupTrace]
  · rw [cleanupFn_eq]; simp [cleanupTrace]
  · intro h; simp [cleanupTrace, h]
  · intro sock h; simp [cleanupTrace, h]

/-- Closed instance of `cleanup_idempotent` at a concrete state with a
recording recorder and an open socket, discharging both hypotheses. -/
theorem cleanup_idempotent_witness :
    cleanupFn (cleanupFn openSocketState) = cleanupFn openSocketState ∧
    UIStep.stopRecorder ∈ cleanupTrace openSocketState ∧
    UIStep.closeSocket ∈ cleanupTrace openSocketState :=
  ⟨(cleanup_idempotent openSocketState).1,
   (cleanup_idempotent openSocketState).2.2.2.2.2.1 rfl,
   (cleanup_idempotent openSocketState).2.2.2.2.2.2 ⟨ReadyState.OPEN⟩ rfl⟩

/-! ## Claim C8: toggling clears the display before opening the socket;
stopping leaves the display intact -/

/-- C8: in the start branch of `handleToggleListening` every step before
the socket-opening step runs first, and after those steps the suggestion
and the transcribed text are empty and the status is 'Connecting'; in the
stop branch the handler ends with `isListening` false and status 'Idle',
leaves the displayed transcribed text and suggestion unchanged, and opens
no socket. -/
theorem toggle_clears_display_before_open (s : WidgetState) :
    (s.isListening = false →
      ∃ pre, toggleTrace s = pre ++ [UIStep.openSocket] ∧
        UIStep.openSocket ∉ pre ∧
        (runSteps s pre).suggestion = "" ∧
        (runSteps s pre).transcribedText = "" ∧
        (runSteps s pre).status = WStatus.Connecting) ∧
    (s.isListening = true →
      (runSteps s (toggleTrace s)).isListening = false ∧
      (runSteps s (toggleTrace s)).status = WStatus.Idle ∧
      (runSteps s (toggleTrace s)).transcribedText = s.transcribedText ∧
      (runSteps s (toggleTrace s)).suggestion = s.suggestion ∧
      UIStep.openSocket ∉ toggleTrace s) := by
  constructor
  · intro h
    refine ⟨[UIStep.setListening true, UIStep.setStatus WStatus.Connecting,
             UIStep.setSuggestion "", UIStep.setTranscribed ""], ?_, ?_, ?_, ?_, ?_⟩
    · simp [toggleTrace, h]
    · simp
    · simp [runSteps, applyStep]
    · simp [runSteps, applyStep]
    · simp [runSteps, applyStep]
  · intro h
    have htr : toggleTrace s =
        [UIStep.setListening false, UIStep.setStatus WStatus.Idle] ++
          cleanupTrace s := by
      simp [toggleTrace, h]
    have hrun : runSteps s (toggleTrace s) =
        { s with isListening := false, status := WStatus.Idle,
                 mediaRecorderRef := none, socketRef := none } := by
      rw [htr, runSteps_append]
      have : runSteps s [UIStep.setListening false, UIStep.setStatus WStatus.Idle] =
          { s with isListening := false, status := WStatus.Idle } := by
        simp [runSteps, applyStep]
      rw [this, runSteps_cleanupTrace]
    refine ⟨?_, ?_, ?_, ?_, ?_⟩
    · rw [hrun]
    · rw [hrun]
    · rw [hrun]
    · rw [hrun]
    · rw [htr]
      intro hmem
      rcases List.mem_append.mp hmem with hmem | hmem
      · simp at hmem
      · exact openSocket_not_mem_cleanupTrace s hmem

/-- Closed instance of `toggle_clears_display_before_open`: the start
branch at the initial state and the stop branch at a listening state. -/
theorem toggle_clears_display_witness :
    (∃ pre, toggleTrace initialWidgetState = pre ++ [UIStep.openSocket] ∧
      UIStep.openSocket ∉ pre ∧
      (runSteps initialWidgetState pre).suggestion = "" ∧
      (runSteps initialWidgetState pre).transcribedText = "" ∧
      (runSteps initialWidgetState pre).status = WStatus.Connecting) ∧
    (runSteps openSocketState (toggleTrace openSocketState)).isListening = false ∧
    (runSteps openSocketState (toggleTrace openSocketState)).status = WStatus.Idle :=
  ⟨(toggle_clears_display_before_open initialWidgetState).1 rfl,
   ((toggle_clears_display_before_open openSocketState).2 rfl).1,
   ((toggle_clears_display_before_open openSocketState).2 rfl).2.1⟩

/-! ## Claim C4: frame union and the `onmessage` dispatch

The claim that the client handles all four frame types fails: neither
`onmessage` variant has a `status` branch — a `status` frame is parsed and
then falls through every branch with no reaction at all. -/

/-- C4 counterexample: at the concrete well-formed frame
`{"type":"status","state":"closed"}` the enhanced handler performs no step
and leaves the state unchanged — the client does not react to `status`
frames, contradicting the claim that all four cases are handled. -/
theorem onmessage_ignores_status_frame :
    onmessageTrace (Frame.statusFrame SessState.closed) initialWidgetState = [] ∧
    onmessage (Frame.statusFrame SessState.closed) initialWidgetState =
      initialWidgetState ∧
    onmessage (Frame.errorFrame "c" "m") initialWidgetState ≠
      initialWidgetState := by
  refine ⟨rfl, rfl, ?_⟩
  simp [onmessage, onmessageTrace, initialWidgetState, cleanupTrace,
        runSteps, applyStep]

/-- C4 amended: server frames form the four-type tagged union, and the
handlers dispatch on the type field as follows — `transcript` updates the
transcribed text, `suggestion` updates the suggestion text, `error` (in the
enhanced widget only) sets status 'Error', stops listening and runs
cleanup, while `status` frames are ignored by both widget variants and
`error` frames are also ignored by the plain variant. -/
theorem onmessage_dispatch (s : WidgetState) (t : String) (b : Bool)
    (u : Nat) (c m : String) (st : SessState) :
    onmessage (Frame.transcript t b) s = { s with transcribedText := t } ∧
    onmessage (Frame.suggestion t u) s = { s with suggestion := t } ∧
    onmessage (Frame.errorFrame c m) s =
      { s with status := WStatus.Error, isListening := false,
               mediaRecorderRef := none, socketRef := none } ∧
    onmessage (Frame.statusFrame st) s = s ∧
    onmessageSimple (Frame.transcript t b) s = { s with transcribedText := t } ∧
    onmessageSimple (Frame.suggestion t u) s = { s with suggestion := t } ∧
    onmessageSimple (Frame.errorFrame c m) s = s ∧
    onmessageSimple (Frame.statusFrame st) s = s := by
  refine ⟨?_, ?_, ?_, rfl, ?_, ?_, rfl, rfl⟩
  · simp [onmessage, onmessageTrace, runSteps, applyStep]
  · simp [onmessage, onmessageTrace, runSteps, applyStep]
  · show runSteps s ([UIStep.setStatus WStatus.Error,
      UIStep.setListening false] ++ cleanupTrace s) = _
    rw [runSteps_append]
    have h2 : runSteps s [UIStep.setStatus WStatus.Error,
        UIStep.setListening false] =
        { s with status := WStatus.Error, isListening := false } := by
      simp [runSteps, applyStep]
    rw [h2, runSteps_cleanupTrace]
  · simp [onmessageSimple, onmessageSimpleTrace, runSteps, applyStep]
  · simp [onmessageSimple, onmessageSimpleTrace, runSteps, applyStep]

/-- Closed instance of `onmessage_dispatch` at concrete frames and state. -/
theorem onmessage_dispatch_witness :
    onmessage (Frame.transcript "Tell me about a challenge." true)
        initialWidgetState =
      { initialWidgetState with
          transcribedText := "Tell me about a challenge." } ∧
    onmessage (Frame.statusFrame SessState.active) initialWidgetState =
      initialWidgetState :=
  ⟨(onmessage_dispatch initialWidgetState "Tell me about a challenge." true 0
      "c" "m" SessState.active).1,
   (onmessage_dispatch initialWidgetState "Tell me about a challenge." true 0
      "c" "m" SessState.active).2.2.2.1⟩

/-! ## Claim C3: no chunk silently dropped

The claim fails on the client: `ondataavailable` sends a non-empty chunk
only when the socket ref holds an OPEN socket, and in every other case it
does nothing at all — no send, no error event, no accounting. -/

/-- C3 counterexample: a non-empty recorded chunk (size 5) arriving while
the socket is in the CLOSING state is discarded with no observable outcome
whatsoever — the handler's step sequence is empty. -/
theorem ondataavailable_silent_drop :
    0 < 5 ∧ ondataavailable 5 closingSocketState = [] := by
  refine ⟨by decide, ?_⟩
  simp [ondataavailable, closingSocketState]

/-- C3 amended: a non-empty recorded chunk is sent on the socket exactly
when the socket ref holds an OPEN socket; in every other case (socket
absent, socket not OPEN, or empty chunk) the handler performs no step —
the chunk is dropped silently, with no error event and no accounting. -/
theorem ondataavailable_send_iff (n : Nat) (s : WidgetState) :
    (UIStep.send n ∈ ondataavailable n s ↔
      0 < n ∧ s.socketRef.map Socket.readyState = some ReadyState.OPEN) ∧
    (¬(0 < n ∧ s.socketRef.map Socket.readyState = some ReadyState.OPEN) →
      ondataavailable n s = []) := by
  unfold ondataavailable
  by_cases h : 0 < n ∧ s.socketRef.map Socket.readyState = some ReadyState.OPEN
  · simp [h]
  · simp [h]

/-- Closed instance of `ondataavailable_send_iff`: a non-empty chunk is
sent on an OPEN socket; an empty chunk at the initial state yields no
step. -/
theorem ondataavailable_send_iff_witness :
    UIStep.send 5 ∈ ondataavailable 5 openSocketState ∧
    ondataavailable 0 initialWidgetState = [] :=
  ⟨(ondataavailable_send_iff 5 openSocketState).1.mpr
      (by refine ⟨by decide, ?_⟩; rfl),
   (ondataavailable_send_iff 0 initialWidgetState).2 (by decide)⟩

/-! ## Claim C9: the signup password-mismatch guard -/

/-- C9: in signup mode, when the two entered passwords differ,
`handleSubmit` sets the mismatch error message, leaves the loading flag
false and returns without reaching the authentication call; in login mode
the guard never fires — the authentication call is always reached and the
mismatch message is never set. -/
theorem signup_mismatch_guard (p c p' c' : String) (h : p ≠ c) :
    handleSubmit AuthMode.signup p c =
      { error := mismatchMsg, isLoading := false, attemptedAuth := false } ∧
    (handleSubmit AuthMode.login p' c').attemptedAuth = true ∧
    (handleSubmit AuthMode.login p' c').error = "" := by
  refine ⟨?_, ?_, ?_⟩
  · simp [handleSubmit, h]
  · simp [handleSubmit]
  · simp [handleSubmit]

/-- Closed instance of `signup_mismatch_guard` at concrete differing
passwords, and a login-mode submission with the same differing pair. -/
theorem signup_mismatch_guard_witness :
    handleSubmit AuthMode.signup "hunter2" "hunter3" =
      { error := mismatchMsg, isLoading := false, attemptedAuth := false } ∧
    (handleSubmit AuthMode.login "hunter2" "hunter3").attemptedAuth = true :=
  ⟨(signup_mismatch_guard "hunter2" "hunter3" "hunter2" "hunter3"
      (by decide)).1,
   (signup_mismatch_guard "hunter2" "hunter3" "hunter2" "hunter3"
      (by decide)).2.1⟩

/-! ## Claim C10: the Supabase module fails fast at load time -/

/-- C10: module initialization of `lib/supabase.ts` throws when either
environment variable is undefined or empty — producing no client — and
when both are present and non-empty it exports a client built from exactly
those two values. -/
theorem supabase_fail_fast (u k : Option String) (su sk : String)
    (hu : u = some su) (hsu : su ≠ "") (hk : k = some sk) (hsk : sk ≠ "") :
    (∀ u' k' : Option String, envFalsy u' = true ∨ envFalsy k' = true →
      initSupabase u' k' =
        Except.error
          "Supabase URL and Anon Key must be defined in .env.local") ∧
    initSupabase u k = Except.ok (createClient su sk) := by
  constructor
  · intro u' k' h'
    rcases h' with h' | h' <;> simp [initSupabase, h']
  · subst hu; subst hk
    simp [initSupabase, envFalsy, hsu, hsk]

/-- Closed instance of `supabase_fail_fast`: a missing URL together with an
empty key yields the load-time error; two concrete non-empty values yield
the client built from exactly them. -/
theorem supabase_fail_fast_witness :
    initSupabase none (some "") =
      Except.error
        "Supabase URL and Anon Key must be defined in .env.local" ∧
    initSupabase (some "https://proj.supabase.co") (some "anon-key") =
      Except.ok (createClient "https://proj.supabase.co" "anon-key") :=
  ⟨(supabase_fail_fast (some "https://proj.supabase.co") (some "anon-key")
      "https://proj.supabase.co" "anon-key" rfl (by decide) rfl
      (by decide)).1 none (some "") (Or.inl rfl),
   (supabase_fail_fast (some "https://proj.supabase.co") (some "anon-key")
      "https://proj.supabase.co" "anon-key" rfl (by decide) rfl
      (by decide)).2⟩

/-! ## Claim C1: per-utterance event order and single-flight suggestion
dispatch (spec-modelled: the relay backend is not under the source tree) -/

/-- C1: over every input sequence, the relay's outbound trace emits
`transcriptFinal u` before `suggestionReady u` for every utterance `u`
(the trace is well ordered from the empty context), the number of
SuggestionAdapter calls outstanding is at most one, and a finalization
arriving while a request is in flight issues no adapter call but is placed
in the size-1 queue, the newest utterance superseding whatever was queued
before. -/
theorem relay_order_single_flight (is : List RInput) (t : RelayS)
    (u w : Nat) (hw : t.inflight = some w) :
    okEvents [] (runRelay is).events ∧
    outstanding (runRelay is) ≤ 1 ∧
    (stepRelay t (RInput.finalize u)).pending = some u ∧
    (stepRelay t (RInput.finalize u)).calls = t.calls := by
  obtain ⟨hok, hinf, hpend, hcount⟩ := relayInv_run is
  refine ⟨hok, ?_, ?_, ?_⟩
  · unfold outstanding
    rw [hcount]
    cases hin : (runRelay is).inflight <;> simp
  · simp [stepRelay, hw]
  · simp [stepRelay, hw]

/-- Closed instance of `relay_order_single_flight`: two quick finalizations
followed by two adapter responses, and a finalization against a busy relay
with an already-queued utterance. -/
theorem relay_order_single_flight_witness :
    okEvents []
      (runRelay [RInput.finalize 0, RInput.finalize 1,
        RInput.respond, RInput.respond]).events ∧
    outstanding
      (runRelay [RInput.finalize 0, RInput.finalize 1,
        RInput.respond, RInput.respond]) ≤ 1 ∧
    (stepRelay ⟨some 7, some 3, [], []⟩ (RInput.finalize 9)).pending =
      some 9 ∧
    (stepRelay ⟨some 7, some 3, [], []⟩ (RInput.finalize 9)).calls =
      RelayS.calls ⟨some 7, some 3, [], []⟩ :=
  relay_order_single_flight
    [RInput.finalize 0, RInput.finalize 1, RInput.respond, RInput.respond]
    ⟨some 7, some 3, [], []⟩ 9 7 rfl

/-! ## Claim C2: ingest sequence numbers are contiguous
(spec-modelled: the relay backend is not under the source tree) -/

theorem ingest_foldl_range (l : List AudioChunk) :
    ∀ b0 : IngestBuffer, b0.forwarded = List.range b0.nextSeq →
      (l.foldl (fun b c => (accept b c).1) b0).forwarded =
        List.range (l.foldl (fun b c => (accept b c).1) b0).nextSeq := by
  induction l with
  | nil => intro b0 h; exact h
  | cons c rest ih =>
    intro b0 h
    apply ih
    unfold accept
    by_cases h1 : c.seq = b0.nextSeq
    · by_cases h2 : maxBufferedMs < b0.bufferedMs + c.durationMs
      · simp [h1, h2, h]
      · simp [h1, h2, h, List.range_succ]
    · simp [h1, h]

/-- C2: over every presented chunk sequence the sequence numbers forwarded
to the TranscriptionAdapter are exactly `0, 1, 2, ...` — strictly
increasing with no gaps — and `accept` rejects any chunk whose sequence
number is not exactly the last accepted plus one with `OutOfOrder`,
leaving the buffer (and hence the forwarded stream) unchanged. -/
theorem ingest_strictly_increasing (cs : List AudioChunk)
    (b : IngestBuffer) (c : AudioChunk) (h : c.seq ≠ b.nextSeq) :
    (runIngest cs).forwarded = List.range (runIngest cs).nextSeq ∧
    (runIngest cs).forwarded =
      List.range (runIngest cs).forwarded.length ∧
    accept b c = (b, Except.error RejectReason.OutOfOrder) := by
  have h1 : (runIngest cs).forwarded = List.range (runIngest cs).nextSeq := by
    unfold runIngest
    exact ingest_foldl_range cs ingestInit rfl
  refine ⟨h1, ?_, ?_⟩
  · rw [h1, List.length_range]
  · unfold accept
    simp [h]

/-- Closed instance of `ingest_strictly_increasing`: chunks 0 and 1 are
accepted and forwarded in order, a stray chunk with sequence number 5 is
rejected and never forwarded, and `accept` at a fresh buffer rejects a
chunk with sequence number 3 as `OutOfOrder`. -/
theorem ingest_strictly_increasing_witness :
    (runIngest [⟨0, 10⟩, ⟨1, 10⟩, ⟨5, 3⟩, ⟨2, 4⟩]).forwarded =
      List.range (runIngest [⟨0, 10⟩, ⟨1, 10⟩, ⟨5, 3⟩, ⟨2, 4⟩]).nextSeq ∧
    (runIngest [⟨0, 10⟩, ⟨1, 10⟩, ⟨5, 3⟩, ⟨2, 4⟩]).forwarded =
      List.range
        (runIngest [⟨0, 10⟩, ⟨1, 10⟩, ⟨5, 3⟩, ⟨2, 4⟩]).forwarded.length ∧
    accept ingestInit ⟨3, 1⟩ =
      (ingestInit, Except.error RejectReason.OutOfOrder) :=
  ingest_strictly_increasing [⟨0, 10⟩, ⟨1, 10⟩, ⟨5, 3⟩, ⟨2, 4⟩]
    ingestInit ⟨3, 1⟩ (by decide)

/-! ## Claim C5: fatal failures are surfaced before teardown
(spec-modelled: the relay backend is not under the source tree) -/

/-- C5: handling any failure emits an `error` event naming its kind — no
error kind is ever dropped; a fatal kind moves the machine to `Closed` and
emits both the `error` event and the terminal `status` event for `Closed`
strictly before the connection is released; a non-fatal kind leaves the
lifecycle state unchanged and emits exactly the `error` event. -/
theorem failure_surfaced (st : SessState) (k : ErrorKind) :
    RelayAction.emitError k ∈ (handleFailure st k).2 ∧
    (isFatal k = true →
      (handleFailure st k).1 = SessState.closed ∧
      ∃ l1 l2, (handleFailure st k).2 =
          l1 ++ RelayAction.releaseConnection :: l2 ∧
        RelayAction.emitStatus SessState.closed ∈ l1 ∧
        RelayAction.emitError k ∈ l1) ∧
    (isFatal k = false →
      (handleFailure st k).1 = st ∧
      (handleFailure st k).2 = [RelayAction.emitError k]) := by
  by_cases hf : isFatal k = true
  · refine ⟨by simp [handleFailure, hf], ?_, ?_⟩
    · intro _
      refine ⟨by simp [handleFailure, hf],
        [RelayAction.emitError k, RelayAction.emitStatus SessState.draining,
         RelayAction.emitStatus SessState.closed], [],
        by simp [handleFailure, hf], by simp, by simp⟩
    · intro hff
      rw [hf] at hff
      cases hff
  · have hf' : isFatal k = false := by simpa using hf
    refine ⟨by simp [handleFailure, hf'], ?_, ?_⟩
    · intro hff
      rw [hf'] at hff
      cases hff
    · intro _
      exact ⟨by simp [handleFailure, hf'], by simp [handleFailure, hf']⟩

/-- Closed instance of `failure_surfaced`: a non-fatal `Timeout` is
surfaced without closing, and a fatal `BackendUnavailable` closes the
session with the terminal status event emitted before the connection is
released. -/
theorem failure_surfaced_witness :
    RelayAction.emitError ErrorKind.Timeout ∈
      (handleFailure SessState.active ErrorKind.Timeout).2 ∧
    (handleFailure SessState.active ErrorKind.Timeout).1 =
      SessState.active ∧
    (handleFailure SessState.active ErrorKind.BackendUnavailable).1 =
      SessState.closed :=
  ⟨(failure_surfaced SessState.active ErrorKind.Timeout).1,
   ((failure_surfaced SessState.active ErrorKind.Timeout).2.2 rfl).1,
   ((failure_surfaced SessState.active
      ErrorKind.BackendUnavailable).2.1 rfl).1⟩

end InterviewAssistant
